import Mathlib

/-!
Shallow embedding of `packages/remix-stubs/src/createRemixStub.tsx`.

The file models the four units of the source — `createRemixContext`,
`createManifest`, `createRouteModules`, `monkeyPatchFetch` — and the
`RemixStub` component's first-render behaviour, then proves the
specification claims about them.

Opaque collaborator values (React elements, loader/action functions,
links/meta/handle/boundary components) are modelled as `Nat` identifiers:
the source never calls or inspects them, it only tests them for presence
(`!!x`) and copies them around, so identity is all that matters.
JavaScript objects used as string-keyed dictionaries are modelled as
functions `String → Option α`, with JS property assignment as an
overwriting insert.
-/

namespace RemixStubs

/-- Opaque React element identity (`React.ReactNode`). -/
abbrev ReactNode := Nat

/-- Opaque `LoaderFunction` identity. -/
abbrev LoaderFunction := Nat

/-- Opaque `ActionFunction` identity. -/
abbrev ActionFunction := Nat

/-- Opaque `LinksFunction` identity. -/
abbrev LinksFunction := Nat

/-- Opaque `MetaFunction` identity. -/
abbrev MetaFunction := Nat

/-- Opaque `handle` value identity. -/
abbrev Handle := Nat

/-- Opaque `CatchBoundaryComponent` identity. -/
abbrev CatchBoundaryComponent := Nat

/-- Opaque `ErrorBoundaryComponent` identity. -/
abbrev ErrorBoundaryComponent := Nat

/-- Opaque `ShouldReloadFunction` identity. -/
abbrev ShouldReloadFunction := Nat

/-- One node of the declarative mock route tree (`MockRouteObject` in the
source). Optional properties are `Option`; `index` collapses the
index/non-index union to a flag, and `children` is the child list (empty
when absent). -/
inductive MockRouteObject : Type where
  | mk
      (path : String)
      (caseSensitive : Option Bool)
      (index : Bool)
      (element : Option ReactNode)
      (loader : Option LoaderFunction)
      (action : Option ActionFunction)
      (links : Option LinksFunction)
      (meta : Option MetaFunction)
      (handle : Option Handle)
      (CatchBoundary : Option CatchBoundaryComponent)
      (ErrorBoundary : Option ErrorBoundaryComponent)
      (unstable_shouldReload : Option ShouldReloadFunction)
      (children : List MockRouteObject)

/-- The `path` property of a route node. -/
def MockRouteObject.path : MockRouteObject → String
  | .mk p _ _ _ _ _ _ _ _ _ _ _ _ => p

/-- The `element` property of a route node. -/
def MockRouteObject.element : MockRouteObject → Option ReactNode
  | .mk _ _ _ e _ _ _ _ _ _ _ _ _ => e

/-- The `loader` property of a route node. -/
def MockRouteObject.loader : MockRouteObject → Option LoaderFunction
  | .mk _ _ _ _ l _ _ _ _ _ _ _ _ => l

/-- The `action` property of a route node. -/
def MockRouteObject.action : MockRouteObject → Option ActionFunction
  | .mk _ _ _ _ _ a _ _ _ _ _ _ _ => a

/-- The `links` property of a route node. -/
def MockRouteObject.links : MockRouteObject → Option LinksFunction
  | .mk _ _ _ _ _ _ l _ _ _ _ _ _ => l

/-- The `meta` property of a route node. -/
def MockRouteObject.meta : MockRouteObject → Option MetaFunction
  | .mk _ _ _ _ _ _ _ m _ _ _ _ _ => m

/-- The `handle` property of a route node. -/
def MockRouteObject.handle : MockRouteObject → Option Handle
  | .mk _ _ _ _ _ _ _ _ h _ _ _ _ => h

/-- The `CatchBoundary` property of a route node. -/
def MockRouteObject.CatchBoundary : MockRouteObject → Option CatchBoundaryComponent
  | .mk _ _ _ _ _ _ _ _ _ c _ _ _ => c

/-- The `ErrorBoundary` property of a route node. -/
def MockRouteObject.ErrorBoundary : MockRouteObject → Option ErrorBoundaryComponent
  | .mk _ _ _ _ _ _ _ _ _ _ e _ _ => e

/-- The `unstable_shouldReload` property of a route node. -/
def MockRouteObject.unstable_shouldReload : MockRouteObject → Option ShouldReloadFunction
  | .mk _ _ _ _ _ _ _ _ _ _ _ s _ => s

/-- The `children` property of a route node (empty list when absent). -/
def MockRouteObject.children : MockRouteObject → List MockRouteObject
  | .mk _ _ _ _ _ _ _ _ _ _ _ _ cs => cs

/-- A JS object used as a string-keyed dictionary. -/
def StrMap (α : Type) := String → Option α

/-- The empty JS dictionary `\x7b\x7d`. -/
def StrMap.empty {α : Type} : StrMap α := fun _ => none

/-- JS property assignment `m[k] = v`: overwrites any earlier binding. -/
def StrMap.insert {α : Type} (m : StrMap α) (k : String) (v : α) : StrMap α :=
  fun x => if x = k then some v else m x

/-- Dictionary lookup `m[k]`. -/
def StrMap.lookup {α : Type} (m : StrMap α) (k : String) : Option α := m k

/- ------------------------------------------------------------------ -/
/- Network interceptor (`monkeyPatchFetch`)                           -/
/- ------------------------------------------------------------------ -/

/-- A `Response` instance: the source only reads `status`; `body` keeps
distinct responses distinct. -/
structure Response where
  status : Nat
  body : String
deriving DecidableEq

/-- A JavaScript value thrown by `handler.queryRoute`. Either an actual
`Response` instance (the only case `error instanceof Response` accepts),
or any other value, which may still carry a numeric `status` field without
being a `Response`. -/
inductive JsValue : Type where
  | response (r : Response)
  | nonResponse (status : Option Nat) (tag : Nat)
deriving DecidableEq

/-- Opaque `RequestInit` value. -/
abbrev RequestInit := String

/-- The request built by `new Request(input, init)`. -/
structure Request where
  input : String
  init : RequestInit
deriving DecidableEq

/-- A fetch-shaped function: `(input, init) => Promise of Response`, with the
promise modelled as `Except`: `ok` is a resolved response, `error` a
rejection carrying the thrown value. -/
abbrev FetchFn := String → RequestInit → Except JsValue Response

/-- The static request handler returned by `createStaticHandler(routes)`:
an external collaborator, kept opaque as its `queryRoute` operation. -/
structure StaticHandler where
  queryRoute : Request → Except JsValue Response

/-- The body of the replacement fetch that `monkeyPatchFetch` installs.
The source captures `window.fetch` as `originalFetch` and assigns the
returned closure to `window.fetch`; here the captured original is an
explicit argument and the installed closure is the returned value:

  const request = new Request(input, init);
  try \x7b return await handler.queryRoute(request); \x7d
  catch (error) \x7b
    if (error instanceof Response) \x7b
      if (error.status === 404 or error.status === 405)
        return originalFetch(input, init);
    \x7d
    throw error;
  \x7d -/
def monkeyPatchFetch (handler : StaticHandler) (originalFetch : FetchFn) : FetchFn :=
  fun input init =>
    let request : Request := Request.mk input init
    match handler.queryRoute request with
    | Except.ok resp => Except.ok resp
    | Except.error err =>
      match err with
      | JsValue.response r =>
        if r.status = 404 ∨ r.status = 405 then originalFetch input init
        else Except.error err
      | JsValue.nonResponse s t => Except.error (JsValue.nonResponse s t)

/-- Handler whose `queryRoute` always throws an actual `Response` with
status 404. -/
def handler404 : StaticHandler :=
  StaticHandler.mk fun _ => Except.error (JsValue.response (Response.mk 404 "nf"))

/-- Handler whose `queryRoute` always throws an actual `Response` with
status 500. -/
def handler500 : StaticHandler :=
  StaticHandler.mk fun _ => Except.error (JsValue.response (Response.mk 500 "boom"))

/-- Handler whose `queryRoute` always throws a non-`Response` value that
nevertheless carries a `status` field of 404. -/
def handlerFakeResponse : StaticHandler :=
  StaticHandler.mk fun _ => Except.error (JsValue.nonResponse (some 404) 7)

/-- A stand-in for the captured original network function. -/
def realFetch : FetchFn := fun _ _ => Except.ok (Response.mk 200 "real")

/-- C1: for every invocation of the patched fetch: a `queryRoute` success is
returned verbatim; a thrown `Response` with status 404 or 405 makes the
interceptor re-issue the original `(input, init)` against the captured
original fetch and return that result; any other thrown value is re-raised
unchanged — in particular a thrown `Response` with status 500 propagates. -/
theorem monkeyPatchFetch_cases (handler : StaticHandler) (originalFetch : FetchFn)
    (input : String) (init : RequestInit) :
    (∀ resp : Response, handler.queryRoute (Request.mk input init) = Except.ok resp →
      monkeyPatchFetch handler originalFetch input init = Except.ok resp) ∧
    (∀ r : Response,
      handler.queryRoute (Request.mk input init) = Except.error (JsValue.response r) →
      (r.status = 404 ∨ r.status = 405) →
      monkeyPatchFetch handler originalFetch input init = originalFetch input init) ∧
    (∀ e : JsValue, handler.queryRoute (Request.mk input init) = Except.error e →
      (∀ r : Response, e = JsValue.response r → r.status ≠ 404 ∧ r.status ≠ 405) →
      monkeyPatchFetch handler originalFetch input init = Except.error e) ∧
    (∀ r : Response, r.status = 500 →
      handler.queryRoute (Request.mk input init) = Except.error (JsValue.response r) →
      monkeyPatchFetch handler originalFetch input init
        = Except.error (JsValue.response r)) := by
  refine ⟨?_, ?_, ?_, ?_⟩
  · intro resp hq
    simp [monkeyPatchFetch, hq]
  · intro r hq hs
    simp [monkeyPatchFetch, hq, hs]
  · intro e hq hns
    cases e with
    | response r =>
      have hr := hns r rfl
      simp [monkeyPatchFetch, hq, hr.1, hr.2]
    | nonResponse s t =>
      simp [monkeyPatchFetch, hq]
  · intro r h500 hq
    simp [monkeyPatchFetch, hq, h500]

/-- C1 witness: a handler failure with status 404 passes through to the
original fetch; a handler failure with status 500 propagates unchanged. -/
theorem monkeyPatchFetch_cases_witness :
    monkeyPatchFetch handler404 realFetch "/x" "" = realFetch "/x" "" ∧
    monkeyPatchFetch handler500 realFetch "/x" ""
      = Except.error (JsValue.response (Response.mk 500 "boom")) :=
  ⟨(monkeyPatchFetch_cases handler404 realFetch "/x" "").2.1
      (Response.mk 404 "nf") rfl (Or.inl rfl),
   (monkeyPatchFetch_cases handler500 realFetch "/x" "").2.2.2
      (Response.mk 500 "boom") rfl rfl⟩

/-- C9: passthrough happens only for actual `Response` instances: a thrown
non-`Response` value is re-raised unchanged even when it carries a `status`
field of 404 or 405. -/
theorem monkeyPatchFetch_nonResponse_reraised (handler : StaticHandler)
    (originalFetch : FetchFn) (input : String) (init : RequestInit)
    (s : Option Nat) (t : Nat)
    (hq : handler.queryRoute (Request.mk input init)
      = Except.error (JsValue.nonResponse s t)) :
    monkeyPatchFetch handler originalFetch input init
      = Except.error (JsValue.nonResponse s t) := by
  simp [monkeyPatchFetch, hq]

/-- C9 witness: a non-`Response` thrown value whose `status` field is 404 is
re-raised rather than passed through. -/
theorem monkeyPatchFetch_nonResponse_reraised_witness :
    monkeyPatchFetch handlerFakeResponse realFetch "/x" ""
      = Except.error (JsValue.nonResponse (some 404) 7) :=
  monkeyPatchFetch_nonResponse_reraised handlerFakeResponse realFetch "/x" ""
    (some 404) 7 rfl

/- ------------------------------------------------------------------ -/
/- Context builder (`createRemixContext`, `createManifest`,           -/
/- `createRouteModules`)                                              -/
/- ------------------------------------------------------------------ -/

/-- One manifest entry (`EntryRoute` fields the source fills in). -/
structure EntryRoute where
  id : String
  path : String
  hasAction : Bool
  hasLoader : Bool
  module : String
  hasCatchBoundary : Bool
  hasErrorBoundary : Bool
deriving DecidableEq

/-- The synthetic assets manifest (`AssetsManifest` fields the source
fills in). -/
structure AssetsManifest where
  routes : StrMap EntryRoute
  entryImports : List String
  entryModule : String
  url : String
  version : String

/-- What `default: () => <>\x7broute.element\x7d</>` renders: a fragment
wrapping the node's declared element. -/
inductive Rendered : Type where
  | fragment (element : Option ReactNode)
deriving DecidableEq

/-- One module-map entry (the object the source builds per route). -/
structure RouteModule where
  CatchBoundary : Option CatchBoundaryComponent
  ErrorBoundary : Option ErrorBoundaryComponent
  default : Unit → Rendered
  handle : Option Handle
  links : Option LinksFunction
  meta : Option MetaFunction
  unstable_shouldReload : Option ShouldReloadFunction

/-- The module map keyed by route path (`RouteModules`). -/
abbrev RouteModules := StrMap RouteModule

/-- `routeData` / `initialLoaderData`: route id to opaque data. -/
abbrev RouteData := List (String × Nat)

/-- A location; the source reads only `pathname`. -/
structure Location where
  pathname : String
deriving DecidableEq

/-- An opaque route match produced by the external `matchRoutes`. -/
abbrev RouteMatch := Nat

/-- The externally supplied path matcher `matchRoutes(routes, pathname)`;
the source imports it from the router package and does not reimplement it,
so it is a parameter of the embedding. -/
abbrev Matcher := List MockRouteObject → String → List RouteMatch

/-- The boundary-tracking `appState` block the source builds inline. The
source field `catch` is spelled `catchValue` here (`catch` is reserved in
Lean). -/
structure AppState where
  trackBoundaries : Bool
  trackCatchBoundaries : Bool
  catchBoundaryRouteId : Option String
  renderBoundaryRouteId : Option String
  loaderBoundaryRouteId : Option String
  error : Option Nat
  catchValue : Option Nat
deriving DecidableEq

/-- The aggregate rendering context (`EntryContext` fields the source
fills in). The source field `matches` is spelled `matches_` here
(`matches` is reserved in Lean). -/
structure EntryContext where
  actionData : Option RouteData
  appState : AppState
  matches_ : List RouteMatch
  routeData : RouteData
  manifest : AssetsManifest
  routeModules : RouteModules

/-- `createManifest(routes)`: a fold over the TOP-LEVEL routes array
(`routes.reduce`), assigning `manifest[route.path] = \x7b...\x7d` for each
route; the source does not recurse into `route.children`. -/
def createManifest (routes : List MockRouteObject) : AssetsManifest :=
  { routes := routes.foldl (fun manifest route =>
      manifest.insert route.path
        { id := route.path
          path := route.path
          hasAction := route.action.isSome
          hasLoader := route.loader.isSome
          module := ""
          hasCatchBoundary := route.CatchBoundary.isSome
          hasErrorBoundary := route.ErrorBoundary.isSome }) StrMap.empty
    entryImports := []
    entryModule := ""
    url := ""
    version := "" }

/-- `createRouteModules(routes)`: a fold over the TOP-LEVEL routes array
(`routes.reduce`), assigning `modules[route.path] = \x7b...\x7d`; the source
does not recurse into `route.children`. -/
def createRouteModules (routes : List MockRouteObject) : RouteModules :=
  routes.foldl (fun modules route =>
    modules.insert route.path
      { CatchBoundary := route.CatchBoundary
        ErrorBoundary := route.ErrorBoundary
        default := fun _ => Rendered.fragment route.element
        handle := route.handle
        links := route.links
        meta := route.meta
        unstable_shouldReload := route.unstable_shouldReload }) StrMap.empty

/-- `createRemixContext(routes, currentLocation, initialLoaderData,
initialActionData)`, parameterised by the external matcher. -/
def createRemixContext (matchRoutes : Matcher) (routes : List MockRouteObject)
    (currentLocation : Location) (initialLoaderData : RouteData)
    (initialActionData : Option RouteData) : EntryContext :=
  let matches_ := matchRoutes routes currentLocation.pathname
  { actionData := initialActionData
    appState :=
      { trackBoundaries := true
        trackCatchBoundaries := true
        catchBoundaryRouteId := none
        renderBoundaryRouteId := none
        loaderBoundaryRouteId := none
        error := none
        catchValue := none }
    matches_ := matches_
    routeData := initialLoaderData
    manifest := createManifest routes
    routeModules := createRouteModules routes }

/-- The manifest entry `createManifest` builds for a single route. -/
def entryOf (route : MockRouteObject) : EntryRoute :=
  { id := route.path
    path := route.path
    hasAction := route.action.isSome
    hasLoader := route.loader.isSome
    module := ""
    hasCatchBoundary := route.CatchBoundary.isSome
    hasErrorBoundary := route.ErrorBoundary.isSome }

/-- The module-map entry `createRouteModules` builds for a single route. -/
def moduleOf (route : MockRouteObject) : RouteModule :=
  { CatchBoundary := route.CatchBoundary
    ErrorBoundary := route.ErrorBoundary
    default := fun _ => Rendered.fragment route.element
    handle := route.handle
    links := route.links
    meta := route.meta
    unstable_shouldReload := route.unstable_shouldReload }

/-- The last route of the top-level array declaring path `p`, if any:
the binding JS property assignment leaves in a `reduce`-built object. -/
def lastWithPath (routes : List MockRouteObject) (p : String) :
    Option MockRouteObject :=
  routes.foldl (fun acc r => if r.path = p then some r else acc) none

/-- Lookup in a fold of overwriting inserts keyed by `path` is the image of
the last route with that path. -/
theorem fold_insert_lookup {α : Type} (f : MockRouteObject → α) :
    ∀ (routes : List MockRouteObject) (m : StrMap α)
      (acc : Option MockRouteObject) (p : String),
    m p = acc.map f →
    routes.foldl (fun m r => m.insert r.path (f r)) m p
      = (routes.foldl (fun acc r => if r.path = p then some r else acc) acc).map f := by
  intro routes
  induction routes with
  | nil => intro m acc p h; simpa using h
  | cons r rest ih =>
    intro m acc p h
    simp only [List.foldl_cons]
    apply ih
    by_cases hp : r.path = p
    · subst hp
      simp [StrMap.insert]
    · have hp2 : ¬ (p = r.path) := fun hh => hp hh.symm
      simp only [StrMap.insert, if_neg hp2, if_neg hp]
      exact h

/-- Manifest lookup characterisation shared by the manifest claims. -/
theorem manifest_routes_lookup (routes : List MockRouteObject) (p : String) :
    (createManifest routes).routes p = (lastWithPath routes p).map entryOf := by
  have h := fold_insert_lookup entryOf routes StrMap.empty none p rfl
  exact h

/-- Module-map lookup characterisation shared by the module-map claims. -/
theorem routeModules_lookup (routes : List MockRouteObject) (p : String) :
    createRouteModules routes p = (lastWithPath routes p).map moduleOf := by
  have h := fold_insert_lookup moduleOf routes StrMap.empty none p rfl
  exact h

/-- A route node with path `/a` and no options, used as a child. -/
def childRoute : MockRouteObject :=
  MockRouteObject.mk "/a" none false none none none none none none none none none []

/-- A route node with path `/` whose `children` list holds `childRoute`. -/
def parentRoute : MockRouteObject :=
  MockRouteObject.mk "/" none false none none none none none none none none none
    [childRoute]

/-- C2 counterexample: `childRoute` (path `/a`) appears as a child of
`parentRoute`, yet the manifest built from `[parentRoute]` has no entry
keyed `/a` — child nodes get no manifest entry, contrary to the claim. -/
theorem createManifest_child_missing :
    childRoute.path = "/a" ∧ parentRoute.children = [childRoute] ∧
    (createManifest [parentRoute]).routes "/a" = none :=
  ⟨rfl, rfl, rfl⟩

/-- C2 (amended): the manifest contains one entry per TOP-LEVEL route of
the array, keyed by path and equal to `\x7bid: path, path, hasAction,
hasLoader, module: "", hasCatchBoundary, hasErrorBoundary\x7d`; when several
top-level routes share a path the last one's entry stands, and nodes
appearing only as children of other nodes get no entry. Stated as: lookup
at any path is the image under `entryOf` of the last top-level route with
that path. -/
theorem createManifest_top_level_lookup (routes : List MockRouteObject)
    (p : String) :
    (createManifest routes).routes p = (lastWithPath routes p).map entryOf :=
  manifest_routes_lookup routes p

/-- C4 counterexample: `childRoute` (path `/a`) appears as a child of
`parentRoute`, yet the module map built from `[parentRoute]` has no entry
keyed `/a` — child nodes get no module entry, contrary to the claim. -/
theorem createRouteModules_child_missing :
    childRoute.path = "/a" ∧ parentRoute.children = [childRoute] ∧
    createRouteModules [parentRoute] "/a" = none :=
  ⟨rfl, rfl, rfl⟩

/-- C4 (amended): the module map contains one entry per TOP-LEVEL route of
the array, keyed by path and equal to `\x7bCatchBoundary, ErrorBoundary,
default: () => fragment(element), handle, links, meta,
unstable_shouldReload\x7d`; when several top-level routes share a path the
last one's entry stands, and nodes appearing only as children of other
nodes get no entry. Stated as: lookup at any path is the image under
`moduleOf` of the last top-level route with that path. -/
theorem createRouteModules_top_level_lookup (routes : List MockRouteObject)
    (p : String) :
    createRouteModules routes p = (lastWithPath routes p).map moduleOf :=
  routeModules_lookup routes p

/-- C3: the matched-route list placed in the rendering context is exactly
the output of the externally supplied matcher on the current location's
pathname — unfiltered, unreordered, unaltered. -/
theorem createRemixContext_matches (matchRoutes : Matcher)
    (routes : List MockRouteObject) (currentLocation : Location)
    (initialLoaderData : RouteData) (initialActionData : Option RouteData) :
    (createRemixContext matchRoutes routes currentLocation initialLoaderData
        initialActionData).matches_
      = matchRoutes routes currentLocation.pathname :=
  rfl

/-- C6: the rendering context's `appState` block is the fixed value with
every boundary route id null and neither an error nor a catch value set,
for every input. -/
theorem createRemixContext_appState (matchRoutes : Matcher)
    (routes : List MockRouteObject) (currentLocation : Location)
    (initialLoaderData : RouteData) (initialActionData : Option RouteData) :
    (createRemixContext matchRoutes routes currentLocation initialLoaderData
        initialActionData).appState
      = { trackBoundaries := true
          trackCatchBoundaries := true
          catchBoundaryRouteId := none
          renderBoundaryRouteId := none
          loaderBoundaryRouteId := none
          error := none
          catchValue := none } :=
  rfl

/-- C7: the context builder is deterministic and stateless: two calls with
equal matcher, routes, location, loader data and action data yield equal
rendering contexts; the embedding is a pure function of exactly these
arguments, so no hidden state or cache can influence the result. -/
theorem createRemixContext_deterministic (m1 m2 : Matcher)
    (r1 r2 : List MockRouteObject) (l1 l2 : Location) (d1 d2 : RouteData)
    (a1 a2 : Option RouteData) (hm : m1 = m2) (hr : r1 = r2) (hl : l1 = l2)
    (hd : d1 = d2) (ha : a1 = a2) :
    createRemixContext m1 r1 l1 d1 a1 = createRemixContext m2 r2 l2 d2 a2 := by
  subst hm; subst hr; subst hl; subst hd; subst ha; rfl

/-- C7 witness: two calls of the context builder on equal concrete inputs
produce equal contexts. -/
theorem createRemixContext_deterministic_witness :
    createRemixContext (fun _ _ => []) [parentRoute] (Location.mk "/") [] none
      = createRemixContext (fun _ _ => []) [parentRoute] (Location.mk "/") [] none :=
  createRemixContext_deterministic _ _ _ _ _ _ _ _ _ _ rfl rfl rfl rfl rfl

/-- Folding the last-with-path accumulator over routes none of which
declare path `p` leaves the accumulator unchanged. -/
theorem foldl_lastWith_no_match (p : String) :
    ∀ (post : List MockRouteObject) (acc : Option MockRouteObject),
    (∀ r ∈ post, r.path ≠ p) →
    post.foldl (fun acc r => if r.path = p then some r else acc) acc = acc := by
  intro post
  induction post with
  | nil => intro acc _; rfl
  | cons r rest ih =>
    intro acc h
    simp only [List.foldl_cons]
    rw [if_neg (h r (List.mem_cons_self r rest))]
    exact ih acc fun x hx => h x (List.mem_cons_of_mem r hx)

/-- In a top-level array of the shape `pre ++ [r1] ++ mid ++ [r2] ++ post`
where nothing in `post` declares `r2.path`, the last route with `r2.path`
is `r2`. -/
theorem lastWithPath_append (pre mid post : List MockRouteObject)
    (r1 r2 : MockRouteObject) (hpost : ∀ r ∈ post, r.path ≠ r2.path) :
    lastWithPath (pre ++ r1 :: (mid ++ r2 :: post)) r2.path = some r2 := by
  unfold lastWithPath
  rw [List.foldl_append, List.foldl_cons, List.foldl_append, List.foldl_cons]
  rw [if_pos rfl]
  exact foldl_lastWith_no_match r2.path post (some r2) hpost

/-- C10: when two routes of the top-level array declare the same path, the
later one wins: both the manifest and the module map hold exactly the
entry derived from the last route with that path. -/
theorem duplicate_path_last_wins (pre mid post : List MockRouteObject)
    (r1 r2 : MockRouteObject) (_hdup : r1.path = r2.path)
    (hpost : ∀ r ∈ post, r.path ≠ r2.path) :
    (createManifest (pre ++ r1 :: (mid ++ r2 :: post))).routes r2.path
        = some (entryOf r2) ∧
    createRouteModules (pre ++ r1 :: (mid ++ r2 :: post)) r2.path
        = some (moduleOf r2) := by
  constructor
  · rw [manifest_routes_lookup, lastWithPath_append pre mid post r1 r2 hpost]
    rfl
  · rw [routeModules_lookup, lastWithPath_append pre mid post r1 r2 hpost]
    rfl

/-- First of two top-level routes sharing path `/d`. -/
def dupFirst : MockRouteObject :=
  MockRouteObject.mk "/d" none false (some 1) (some 10) none none none none
    none none none []

/-- Second of two top-level routes sharing path `/d`, with different
element/loader/action than `dupFirst`. -/
def dupSecond : MockRouteObject :=
  MockRouteObject.mk "/d" none false (some 2) none (some 20) none none none
    none none none []

/-- C10 witness: with `[dupFirst, dupSecond]` both declaring `/d`, manifest
and module map hold the second route's entry. -/
theorem duplicate_path_last_wins_witness :
    (createManifest [dupFirst, dupSecond]).routes "/d" = some (entryOf dupSecond) ∧
    createRouteModules [dupFirst, dupSecond] "/d" = some (moduleOf dupSecond) := by
  have h := duplicate_path_last_wins [] [] [] dupFirst dupSecond rfl
    (by intro r hr; exact absurd hr (List.not_mem_nil r))
  simpa using h

/- ------------------------------------------------------------------ -/
/- Stub component first render (`RemixStub`)                          -/
/- ------------------------------------------------------------------ -/

/-- An initial history entry (the source accepts strings). -/
abbrev InitialEntry := String

/-- The stub's configuration object; every option may be omitted. -/
structure RemixStubOptions where
  initialEntries : Option (List InitialEntry)
  initialLoaderData : Option RouteData
  initialActionData : Option RouteData
  initialIndex : Option Nat

/-- A history action. -/
inductive HistoryAction : Type where
  | pop
  | push
  | replace
deriving DecidableEq

/-- The in-memory history: entries plus current index. -/
structure MemoryHistory where
  entries : List InitialEntry
  index : Nat
deriving DecidableEq

/-- Modelled from the spec: `createMemoryHistory` of the external history
package (not part of this repository's sources) "accepts an ordered
sequence of initial locations and an optional starting index (defaulting
to the last entry)". -/
def createMemoryHistory (initialEntries : List InitialEntry)
    (initialIndex : Option Nat) : MemoryHistory :=
  { entries := initialEntries
    index := initialIndex.getD (initialEntries.length - 1) }

/-- Modelled from the spec: the history's current location is the entry at
the current index. -/
def MemoryHistory.location (h : MemoryHistory) : Location :=
  Location.mk (h.entries.getD h.index "/")

/-- Modelled from the spec: a freshly created memory history reports the
pop action. -/
def MemoryHistory.action (_ : MemoryHistory) : HistoryAction :=
  HistoryAction.pop

/-- The stub's navigation state `\x7baction, location\x7d` (`Update`). -/
structure Update where
  action : HistoryAction
  location : Location
deriving DecidableEq

/-- What the first render of `RemixStub` produces: the memoized history,
the initial navigation state, and the rendering context handed to the
framework entry point. -/
structure RemixStubRender where
  history : MemoryHistory
  state : Update
  context : EntryContext

/-- The first render of the component returned by
`createRemixStub(routes)`: destructuring defaults `initialEntries = ["/"]`
and `initialLoaderData = \x7b\x7d` (empty), `initialActionData` stays
absent when omitted, the history is created from the entries and the
optional index, the initial reducer state is the history's
`\x7baction, location\x7d`, and the context is built by
`createRemixContext`. The `monkeyPatchFetch(handler)` side effect on the
process-wide fetch slot is modelled separately by `stubStep`. -/
def RemixStub (matchRoutes : Matcher) (routes : List MockRouteObject)
    (options : RemixStubOptions) : RemixStubRender :=
  let initialEntries := options.initialEntries.getD ["/"]
  let initialLoaderData := options.initialLoaderData.getD []
  let initialActionData := options.initialActionData
  let history := createMemoryHistory initialEntries options.initialIndex
  let state : Update := Update.mk history.action history.location
  let remixContext := createRemixContext matchRoutes routes state.location
    initialLoaderData initialActionData
  RemixStubRender.mk history state remixContext

/-- C5: with options omitted, `initialEntries` defaults to `["/"]`, the
loader data defaults to empty, the action data stays absent, and the
starting index defaults to the last entry — in particular, for
`initialEntries = ["/a", "/b"]` and no `initialIndex` the resolved
starting location is `/b`. -/
theorem remixStub_defaults (matchRoutes : Matcher)
    (routes : List MockRouteObject) (entries : List InitialEntry) :
    (RemixStub matchRoutes routes (RemixStubOptions.mk none none none none)).history.entries
        = ["/"] ∧
    (RemixStub matchRoutes routes (RemixStubOptions.mk none none none none)).context.routeData
        = [] ∧
    (RemixStub matchRoutes routes (RemixStubOptions.mk none none none none)).context.actionData
        = none ∧
    (createMemoryHistory entries none).index = entries.length - 1 ∧
    (RemixStub matchRoutes routes
        (RemixStubOptions.mk (some ["/a", "/b"]) none none none)).state.location.pathname
        = "/b" :=
  ⟨rfl, rfl, rfl, rfl, rfl⟩

/- ------------------------------------------------------------------ -/
/- Lifecycle of the process-wide fetch slot                           -/
/- ------------------------------------------------------------------ -/

/-- The content of the process-wide `window.fetch` slot: either the
original network function, or the `gen`-th replacement closure installed
by `monkeyPatchFetch`. -/
inductive FetchSlot : Type where
  | original
  | patched (gen : Nat)
deriving DecidableEq

/-- Process state for the slot lifecycle: the slot's content and how many
replacements have been installed so far. -/
structure ProcState where
  slot : FetchSlot
  installs : Nat
deriving DecidableEq

/-- Lifecycle events of a mounted stub. -/
inductive StubEvent : Type where
  | render
  | navigate
  | unmount
deriving DecidableEq

/-- Effect of each lifecycle event on the fetch slot, read off the source:
the component body runs `monkeyPatchFetch(handler)` on every render, a
navigation event dispatches new state and re-renders (installing again),
and unmount performs no cleanup — no code path ever writes the captured
original back into the slot. -/
def stubStep (s : ProcState) : StubEvent → ProcState
  | StubEvent.render => ProcState.mk (FetchSlot.patched s.installs) (s.installs + 1)
  | StubEvent.navigate => ProcState.mk (FetchSlot.patched s.installs) (s.installs + 1)
  | StubEvent.unmount => s

/-- C8: once a replacement occupies the process-wide fetch slot, no
sequence of render, navigation, or unmount events ever restores the
original network function: in every reachable state the slot differs from
`original`. -/
theorem fetch_slot_never_restored (s : ProcState) (events : List StubEvent)
    (h : s.slot ≠ FetchSlot.original) :
    (events.foldl stubStep s).slot ≠ FetchSlot.original := by
  induction events generalizing s with
  | nil => exact h
  | cons e rest ih =>
    simp only [List.foldl_cons]
    apply ih
    cases e with
    | render => simp [stubStep]
    | navigate => simp [stubStep]
    | unmount => simpa [stubStep] using h

/-- C8 witness: after an install, a navigation followed by an unmount
leaves the slot patched, not original. -/
theorem fetch_slot_never_restored_witness :
    (([StubEvent.navigate, StubEvent.unmount]).foldl stubStep
        (ProcState.mk (FetchSlot.patched 0) 1)).slot ≠ FetchSlot.original :=
  fetch_slot_never_restored (ProcState.mk (FetchSlot.patched 0) 1)
    [StubEvent.navigate, StubEvent.unmount] (by decide)

end RemixStubs
